import Mathlib

/-!
Verification of the flappy game core (src/main.js).

The simulation core of main.js is embedded shallowly: positions, velocities
and timers are rationals (the JS engine computes in binary floating point;
every constant and operation used by the core is exact decimal arithmetic,
so ℚ is a faithful model for the properties below), scores are naturals,
the obstacle list is a Lean list.  The canvas dimensions come from the
page (index.html is not part of the sources), so every definition is
parametric in the canvas width W and height H.  Math.random() is modelled
by a parameter r passed to each tick: rand r lo hi mirrors
rand(min, max) = min + Math.random() * (max - min) at random value r.
Audio calls touch no simulation state and are dropped; the persisted best
score is carried as a field of the state, setBestScore mirroring the
store-on-improvement logic.
-/

set_option autoImplicit false

namespace Flappy

/-- GRAVITY from main.js. -/
def GRAVITY : ℚ := 1800

/-- JUMP_VELOCITY from main.js. -/
def JUMP_VELOCITY : ℚ := -550

/-- BIRD_X from main.js: the avatar's fixed horizontal coordinate. -/
def BIRD_X : ℚ := 90

/-- BIRD_RADIUS from main.js. -/
def BIRD_RADIUS : ℚ := 14

/-- PIPE_WIDTH from main.js. -/
def PIPE_WIDTH : ℚ := 70

/-- BASE_PIPE_SPEED from main.js. -/
def BASE_PIPE_SPEED : ℚ := 220

/-- SPEED_PER_POINT from main.js. -/
def SPEED_PER_POINT : ℚ := 6

/-- MAX_PIPE_SPEED from main.js. -/
def MAX_PIPE_SPEED : ℚ := 360

/-- BASE_PIPE_GAP from main.js. -/
def BASE_PIPE_GAP : ℚ := 170

/-- GAP_SHRINK_PER_POINT from main.js (1.2). -/
def GAP_SHRINK_PER_POINT : ℚ := 12 / 10

/-- MIN_PIPE_GAP from main.js. -/
def MIN_PIPE_GAP : ℚ := 135

/-- BASE_SPAWN_EVERY from main.js (1.35). -/
def BASE_SPAWN_EVERY : ℚ := 135 / 100

/-- MIN_SPAWN_EVERY from main.js (1.10). -/
def MIN_SPAWN_EVERY : ℚ := 110 / 100

/-- SPAWN_ACCEL_PER_POINT from main.js (0.01). -/
def SPAWN_ACCEL_PER_POINT : ℚ := 1 / 100

/-- PIPE_MARGIN from main.js. -/
def PIPE_MARGIN : ℚ := 80

/-- GROUND_HEIGHT from main.js. -/
def GROUND_HEIGHT : ℚ := 70

/-- FLOOR_Y = canvas.height - GROUND_HEIGHT, parametric in the canvas height. -/
def FLOOR_Y (H : ℚ) : ℚ := H - GROUND_HEIGHT

/-- The game phase enum State from main.js. -/
inductive State
  | START
  | PLAYING
  | GAME_OVER
deriving DecidableEq

/-- One entry of the pipes array: x, gapY, scored. -/
structure Pipe where
  x : ℚ
  gapY : ℚ
  scored : Bool
deriving DecidableEq

/-- The mutable globals of main.js gathered into one record:
state, bird.y, bird.vy, pipes, spawnTimer, score, bestScore. -/
structure GameState where
  state : State
  birdY : ℚ
  birdVy : ℚ
  pipes : List Pipe
  spawnTimer : ℚ
  score : ℕ
  bestScore : ℕ
deriving DecidableEq

/-- clamp(v, lo, hi) = Math.max(lo, Math.min(v, hi)). -/
def clamp (v lo hi : ℚ) : ℚ := max lo (min v hi)

/-- currentPipeSpeed() from main.js, as a function of the score it reads. -/
def currentPipeSpeed (score : ℕ) : ℚ :=
  clamp (BASE_PIPE_SPEED + (score : ℚ) * SPEED_PER_POINT) BASE_PIPE_SPEED MAX_PIPE_SPEED

/-- currentPipeGap() from main.js, as a function of the score it reads. -/
def currentPipeGap (score : ℕ) : ℚ :=
  clamp (BASE_PIPE_GAP - (score : ℚ) * GAP_SHRINK_PER_POINT) MIN_PIPE_GAP BASE_PIPE_GAP

/-- currentSpawnEvery() from main.js, as a function of the score it reads. -/
def currentSpawnEvery (score : ℕ) : ℚ :=
  clamp (BASE_SPAWN_EVERY - (score : ℚ) * SPAWN_ACCEL_PER_POINT) MIN_SPAWN_EVERY BASE_SPAWN_EVERY

/-- rand(min, max) = min + Math.random() * (max - min), with the random
draw exposed as the parameter r. -/
def rand (r lo hi : ℚ) : ℚ := lo + r * (hi - lo)

/-- circleIntersectsRect from main.js: closest-point test. -/
def circleIntersectsRect (cx cy r rx ry rw rh : ℚ) : Bool :=
  let closestX := max rx (min cx (rx + rw))
  let closestY := max ry (min cy (ry + rh))
  let dx := cx - closestX
  let dy := cy - closestY
  decide (dx * dx + dy * dy ≤ r * r)

/-- setBestScore(newValue) from main.js: replace the stored best only on
strict improvement. -/
def setBestScore (newValue best : ℕ) : ℕ :=
  if newValue > best then newValue else best

/-- resetRun() from main.js: bird back to canvas.height * 0.35 with zero
velocity, pipes cleared, spawn timer and score zeroed. -/
def resetRun (H : ℚ) (s : GameState) : GameState :=
  { s with birdY := H * (35 / 100), birdVy := 0, pipes := [], spawnTimer := 0, score := 0 }

/-- goToStart() from main.js. -/
def goToStart (H : ℚ) (s : GameState) : GameState :=
  { resetRun H s with state := State.START }

/-- startPlaying(withJump) from main.js (the Sound.jump cue touches no
simulation state). -/
def startPlaying (H : ℚ) (withJump : Bool) (s : GameState) : GameState :=
  let s1 := { resetRun H s with state := State.PLAYING }
  if withJump then { s1 with birdVy := JUMP_VELOCITY } else s1

/-- onPrimaryAction() from main.js (Sound.unlock/Sound.jump touch no
simulation state). -/
def onPrimaryAction (H : ℚ) (s : GameState) : GameState :=
  if s.state = State.START then startPlaying H true s
  else if s.state = State.GAME_OVER then startPlaying H true s
  else { s with birdVy := JUMP_VELOCITY }

/-- The KeyC handler from main.js: clear the stored best score. -/
def clearBest (s : GameState) : GameState :=
  { s with bestScore := 0 }

/-- The test of the scoring loop body: !p.scored && p.x + PIPE_WIDTH < BIRD_X. -/
def scoreCond (p : Pipe) : Bool :=
  !p.scored && decide (p.x + PIPE_WIDTH < BIRD_X)

/-- The scoring loop of update() (main.js lines 431-438): walk the pipes in
order; each unscored pipe whose trailing edge is strictly left of BIRD_X is
marked scored, the score is incremented and the best score updated.
Returns (pipes, score, bestScore). -/
def scorePass : List Pipe → ℕ → ℕ → List Pipe × ℕ × ℕ
  | [], sc, best => ([], sc, best)
  | p :: ps, sc, best =>
    if scoreCond p then
      let out := scorePass ps (sc + 1) (setBestScore (sc + 1) best)
      ({ p with scored := true } :: out.1, out.2)
    else
      let out := scorePass ps sc best
      (p :: out.1, out.2)

/-- The per-pipe collision test of update(): the bird circle against the top
segment [0, gapTop] and the bottom segment [gapBottom, FLOOR_Y] of the
pipe's column. -/
def hitPipe (H pipeGap birdY : ℚ) (p : Pipe) : Bool :=
  let gapTop := p.gapY - pipeGap / 2
  let gapBottom := p.gapY + pipeGap / 2
  circleIntersectsRect BIRD_X birdY BIRD_RADIUS p.x 0 PIPE_WIDTH gapTop ||
    circleIntersectsRect BIRD_X birdY BIRD_RADIUS p.x gapBottom PIPE_WIDTH (FLOOR_Y H - gapBottom)

/-- The collision loop of update() (main.js lines 444-466): first hit wins;
on a hit, enter GAME_OVER, zero the velocity, persist the best score, stop. -/
def collidePass (H pipeGap : ℚ) : List Pipe → GameState → GameState
  | [], s => s
  | p :: ps, s =>
    if hitPipe H pipeGap s.birdY p then
      { s with state := State.GAME_OVER, birdVy := 0,
               bestScore := setBestScore s.score s.bestScore }
    else collidePass H pipeGap ps s

/-- The pipe transformation the scoring loop applies pointwise. -/
def markPipe (p : Pipe) : Pipe :=
  if scoreCond p then { p with scored := true } else p

/-- update(dt) from main.js: no-op unless PLAYING; difficulty values read
once at entry; gravity integration; ceiling clamp; floor clamp with
GAME_OVER and early return; spawn on timer; move; prune; scoring pass;
collision pass.  W, H are the canvas dimensions, r the random draw used if
a pipe spawns this tick. -/
def update (W H dt r : ℚ) (s : GameState) : GameState :=
  if s.state = State.PLAYING then
    let pipeSpeed := currentPipeSpeed s.score
    let pipeGap := currentPipeGap s.score
    let spawnEvery := currentSpawnEvery s.score
    let vy0 := s.birdVy + GRAVITY * dt
    let y0 := s.birdY + vy0 * dt
    let y1 := if y0 < BIRD_RADIUS then BIRD_RADIUS else y0
    let vy1 := if y0 < BIRD_RADIUS then 0 else vy0
    if y1 ≥ FLOOR_Y H - BIRD_RADIUS then
      { s with birdY := FLOOR_Y H - BIRD_RADIUS, birdVy := 0, state := State.GAME_OVER,
               bestScore := setBestScore s.score s.bestScore }
    else
      let spawnTimer0 := s.spawnTimer + dt
      let doSpawn : Bool := decide (spawnTimer0 ≥ spawnEvery)
      let spawnTimer1 := if doSpawn then 0 else spawnTimer0
      let minGapY := PIPE_MARGIN + pipeGap / 2
      let maxGapY := FLOOR_Y H - PIPE_MARGIN - pipeGap / 2
      let pipes0 :=
        if doSpawn then s.pipes ++ [⟨W + PIPE_WIDTH, rand r minGapY maxGapY, false⟩]
        else s.pipes
      let pipes1 := pipes0.map (fun p => { p with x := p.x - pipeSpeed * dt })
      let pipes2 := pipes1.filter (fun p => decide (p.x + PIPE_WIDTH > 0))
      let out := scorePass pipes2 s.score s.bestScore
      let s1 := { s with birdY := y1, birdVy := vy1, spawnTimer := spawnTimer1,
                         pipes := out.1, score := out.2.1, bestScore := out.2.2 }
      collidePass H pipeGap out.1 s1
  else s

/-- Modelled from the spec: the variant of update(dt) the spec sentence
"All three must be recomputed every tick from the live score (not cached),
since score changes mid-tick during scoring" describes, in the reading where
the collision pass recomputes the gap from the live (possibly already
incremented) score instead of the value read at tick entry.  Identical to
update except for the gap passed to the collision pass. -/
def updateLiveGap (W H dt r : ℚ) (s : GameState) : GameState :=
  if s.state = State.PLAYING then
    let pipeSpeed := currentPipeSpeed s.score
    let pipeGap := currentPipeGap s.score
    let spawnEvery := currentSpawnEvery s.score
    let vy0 := s.birdVy + GRAVITY * dt
    let y0 := s.birdY + vy0 * dt
    let y1 := if y0 < BIRD_RADIUS then BIRD_RADIUS else y0
    let vy1 := if y0 < BIRD_RADIUS then 0 else vy0
    if y1 ≥ FLOOR_Y H - BIRD_RADIUS then
      { s with birdY := FLOOR_Y H - BIRD_RADIUS, birdVy := 0, state := State.GAME_OVER,
               bestScore := setBestScore s.score s.bestScore }
    else
      let spawnTimer0 := s.spawnTimer + dt
      let doSpawn : Bool := decide (spawnTimer0 ≥ spawnEvery)
      let spawnTimer1 := if doSpawn then 0 else spawnTimer0
      let minGapY := PIPE_MARGIN + pipeGap / 2
      let maxGapY := FLOOR_Y H - PIPE_MARGIN - pipeGap / 2
      let pipes0 :=
        if doSpawn then s.pipes ++ [⟨W + PIPE_WIDTH, rand r minGapY maxGapY, false⟩]
        else s.pipes
      let pipes1 := pipes0.map (fun p => { p with x := p.x - pipeSpeed * dt })
      let pipes2 := pipes1.filter (fun p => decide (p.x + PIPE_WIDTH > 0))
      let out := scorePass pipes2 s.score s.bestScore
      let s1 := { s with birdY := y1, birdVy := vy1, spawnTimer := spawnTimer1,
                         pipes := out.1, score := out.2.1, bestScore := out.2.2 }
      collidePass H (currentPipeGap out.2.1) out.1 s1
  else s

/-- The four normalized commands the keydown/pointerdown handlers dispatch,
plus one simulation tick of the driver loop. -/
inductive Cmd
  | primary
  | reset
  | clearBestCmd
  | muteToggle
  | tick (dt r : ℚ)

/-- One dispatched command or tick, as wired in main.js. -/
def step (W H : ℚ) : Cmd → GameState → GameState
  | Cmd.primary, s => onPrimaryAction H s
  | Cmd.reset, s => goToStart H s
  | Cmd.clearBestCmd, s => clearBest s
  | Cmd.muteToggle, s => s
  | Cmd.tick dt r, s => update W H dt r s

/-- A whole interaction: a sequence of commands and ticks. -/
def steps (W H : ℚ) : List Cmd → GameState → GameState
  | [], s => s
  | c :: cs, s => steps W H cs (step W H c s)

end Flappy

namespace Flappy

/-! ### Helper lemmas -/

theorem le_clamp (v lo hi : ℚ) : lo ≤ clamp v lo hi := le_max_left _ _

theorem clamp_le_right (v lo hi : ℚ) (h : lo ≤ hi) : clamp v lo hi ≤ hi :=
  max_le h (min_le_right _ _)

theorem clamp_mono (lo hi : ℚ) {v w : ℚ} (h : v ≤ w) : clamp v lo hi ≤ clamp w lo hi :=
  max_le_max le_rfl (min_le_min h le_rfl)

theorem currentPipeSpeed_le (sc : ℕ) : currentPipeSpeed sc ≤ 360 := by
  have := clamp_le_right (BASE_PIPE_SPEED + (sc : ℚ) * SPEED_PER_POINT)
    BASE_PIPE_SPEED MAX_PIPE_SPEED (by norm_num [BASE_PIPE_SPEED, MAX_PIPE_SPEED])
  simpa [currentPipeSpeed, MAX_PIPE_SPEED] using this

theorem currentPipeSpeed_nonneg (sc : ℕ) : 0 ≤ currentPipeSpeed sc := by
  have := le_clamp (BASE_PIPE_SPEED + (sc : ℚ) * SPEED_PER_POINT) BASE_PIPE_SPEED MAX_PIPE_SPEED
  have h2 : (0 : ℚ) ≤ BASE_PIPE_SPEED := by norm_num [BASE_PIPE_SPEED]
  calc (0:ℚ) ≤ BASE_PIPE_SPEED := h2
    _ ≤ _ := this

theorem setBestScore_eq_max (n b : ℕ) : setBestScore n b = max b n := by
  unfold setBestScore; split <;> omega

end Flappy

namespace Flappy

theorem scorePass_fst (ps : List Pipe) (sc best : ℕ) :
    (scorePass ps sc best).1 = ps.map markPipe := by
  induction ps generalizing sc best with
  | nil => rfl
  | cons p ps ih =>
    by_cases h : scoreCond p = true <;>
      simp [scorePass, markPipe, h, ih sc best, ih (sc + 1) (setBestScore (sc + 1) best)]

theorem scorePass_score (ps : List Pipe) (sc best : ℕ) :
    (scorePass ps sc best).2.1 = sc + ps.countP scoreCond := by
  induction ps generalizing sc best with
  | nil => simp [scorePass]
  | cons p ps ih =>
    by_cases h : scoreCond p = true <;>
      simp [scorePass, List.countP_cons, h, ih] <;> omega

theorem le_scorePass_score (ps : List Pipe) (sc best : ℕ) :
    sc ≤ (scorePass ps sc best).2.1 := by
  rw [scorePass_score]; omega

theorem le_scorePass_best (ps : List Pipe) (sc best : ℕ) :
    best ≤ (scorePass ps sc best).2.2 := by
  induction ps generalizing sc best with
  | nil => simp [scorePass]
  | cons p ps ih =>
    by_cases h : scoreCond p = true <;> simp [scorePass, h]
    · calc best ≤ setBestScore (sc + 1) best := by rw [setBestScore_eq_max]; omega
        _ ≤ _ := ih _ _
    · exact ih _ _

theorem scorePass_best_le (ps : List Pipe) (sc best : ℕ) :
    (scorePass ps sc best).2.2 ≤ max best (scorePass ps sc best).2.1 := by
  induction ps generalizing sc best with
  | nil => simp [scorePass]
  | cons p ps ih =>
    by_cases h : scoreCond p = true
    · have e : scorePass (p :: ps) sc best =
          ({ p with scored := true } :: (scorePass ps (sc + 1) (setBestScore (sc + 1) best)).1,
            (scorePass ps (sc + 1) (setBestScore (sc + 1) best)).2) := by
        simp [scorePass, h]
      have h1 := ih (sc + 1) (setBestScore (sc + 1) best)
      have h2 := le_scorePass_score ps (sc + 1) (setBestScore (sc + 1) best)
      have h3 := setBestScore_eq_max (sc + 1) best
      rw [e]
      show (scorePass ps (sc + 1) (setBestScore (sc + 1) best)).2.2 ≤
        max best (scorePass ps (sc + 1) (setBestScore (sc + 1) best)).2.1
      omega
    · have e : scorePass (p :: ps) sc best =
          (p :: (scorePass ps sc best).1, (scorePass ps sc best).2) := by
        simp [scorePass, h]
      rw [e]
      show (scorePass ps sc best).2.2 ≤ max best (scorePass ps sc best).2.1
      exact ih sc best

theorem collidePass_cases (H g : ℚ) (ps : List Pipe) (s : GameState) :
    collidePass H g ps s = s ∨
      collidePass H g ps s =
        { s with state := State.GAME_OVER, birdVy := 0,
                 bestScore := setBestScore s.score s.bestScore } := by
  induction ps with
  | nil => exact Or.inl rfl
  | cons p ps ih =>
    by_cases h : hitPipe H g s.birdY p = true
    · right; simp [collidePass, h]
    · simpa [collidePass, h] using ih

theorem collidePass_of_hit (H g : ℚ) (ps : List Pipe) (s : GameState)
    (h : ∃ p ∈ ps, hitPipe H g s.birdY p = true) :
    collidePass H g ps s =
      { s with state := State.GAME_OVER, birdVy := 0,
               bestScore := setBestScore s.score s.bestScore } := by
  induction ps with
  | nil => simp at h
  | cons p ps ih =>
    by_cases hp : hitPipe H g s.birdY p = true
    · simp [collidePass, hp]
    · rcases h with ⟨q, hq, hqh⟩
      rcases List.mem_cons.1 hq with rfl | hq
      · exact absurd hqh hp
      · simpa [collidePass, hp] using ih ⟨q, hq, hqh⟩

theorem collidePass_of_no_hit (H g : ℚ) (ps : List Pipe) (s : GameState)
    (h : ∀ p ∈ ps, ¬ hitPipe H g s.birdY p = true) :
    collidePass H g ps s = s := by
  induction ps with
  | nil => rfl
  | cons p ps ih =>
    have hp := h p (List.mem_cons_self p ps)
    simpa [collidePass, hp] using ih fun q hq => h q (List.mem_cons_of_mem p hq)

end Flappy

namespace Flappy

theorem update_not_playing (W H dt r : ℚ) (s : GameState) (hs : s.state ≠ State.PLAYING) :
    update W H dt r s = s := by
  simp only [update]; rw [if_neg hs]

theorem update_eq_floor (W H dt r : ℚ) (s : GameState)
    (hs : s.state = State.PLAYING)
    (hf : (if s.birdY + (s.birdVy + GRAVITY * dt) * dt < BIRD_RADIUS then BIRD_RADIUS
           else s.birdY + (s.birdVy + GRAVITY * dt) * dt) ≥ FLOOR_Y H - BIRD_RADIUS) :
    update W H dt r s =
      { s with birdY := FLOOR_Y H - BIRD_RADIUS, birdVy := 0, state := State.GAME_OVER,
               bestScore := setBestScore s.score s.bestScore } := by
  simp only [update]; rw [if_pos hs, if_pos hf]

theorem update_eq_main (W H dt r : ℚ) (s : GameState)
    (hs : s.state = State.PLAYING)
    (hf : ¬ ((if s.birdY + (s.birdVy + GRAVITY * dt) * dt < BIRD_RADIUS then BIRD_RADIUS
           else s.birdY + (s.birdVy + GRAVITY * dt) * dt) ≥ FLOOR_Y H - BIRD_RADIUS)) :
    update W H dt r s =
      (let vy0 := s.birdVy + GRAVITY * dt
       let y0 := s.birdY + vy0 * dt
       let y1 := if y0 < BIRD_RADIUS then BIRD_RADIUS else y0
       let vy1 := if y0 < BIRD_RADIUS then (0 : ℚ) else vy0
       let pipes2 := ((if decide (s.spawnTimer + dt ≥ currentSpawnEvery s.score) then
             s.pipes ++ [⟨W + PIPE_WIDTH,
               rand r (PIPE_MARGIN + currentPipeGap s.score / 2)
                 (FLOOR_Y H - PIPE_MARGIN - currentPipeGap s.score / 2), false⟩]
           else s.pipes).map
             (fun p => { p with x := p.x - currentPipeSpeed s.score * dt })).filter
             (fun p => decide (p.x + PIPE_WIDTH > 0))
       let out := scorePass pipes2 s.score s.bestScore
       collidePass H (currentPipeGap s.score) out.1
         { s with birdY := y1, birdVy := vy1,
                  spawnTimer := if decide (s.spawnTimer + dt ≥ currentSpawnEvery s.score) then 0
                                else s.spawnTimer + dt,
                  pipes := out.1, score := out.2.1, bestScore := out.2.2 }) := by
  simp only [update]; rw [if_pos hs, if_neg hf]

theorem updateLiveGap_not_playing (W H dt r : ℚ) (s : GameState)
    (hs : s.state ≠ State.PLAYING) :
    updateLiveGap W H dt r s = s := by
  simp only [updateLiveGap]; rw [if_neg hs]

theorem updateLiveGap_eq_floor (W H dt r : ℚ) (s : GameState)
    (hs : s.state = State.PLAYING)
    (hf : (if s.birdY + (s.birdVy + GRAVITY * dt) * dt < BIRD_RADIUS then BIRD_RADIUS
           else s.birdY + (s.birdVy + GRAVITY * dt) * dt) ≥ FLOOR_Y H - BIRD_RADIUS) :
    updateLiveGap W H dt r s =
      { s with birdY := FLOOR_Y H - BIRD_RADIUS, birdVy := 0, state := State.GAME_OVER,
               bestScore := setBestScore s.score s.bestScore } := by
  simp only [updateLiveGap]; rw [if_pos hs, if_pos hf]

theorem updateLiveGap_eq_main (W H dt r : ℚ) (s : GameState)
    (hs : s.state = State.PLAYING)
    (hf : ¬ ((if s.birdY + (s.birdVy + GRAVITY * dt) * dt < BIRD_RADIUS then BIRD_RADIUS
           else s.birdY + (s.birdVy + GRAVITY * dt) * dt) ≥ FLOOR_Y H - BIRD_RADIUS)) :
    updateLiveGap W H dt r s =
      (let vy0 := s.birdVy + GRAVITY * dt
       let y0 := s.birdY + vy0 * dt
       let y1 := if y0 < BIRD_RADIUS then BIRD_RADIUS else y0
       let vy1 := if y0 < BIRD_RADIUS then (0 : ℚ) else vy0
       let pipes2 := ((if decide (s.spawnTimer + dt ≥ currentSpawnEvery s.score) then
             s.pipes ++ [⟨W + PIPE_WIDTH,
               rand r (PIPE_MARGIN + currentPipeGap s.score / 2)
                 (FLOOR_Y H - PIPE_MARGIN - currentPipeGap s.score / 2), false⟩]
           else s.pipes).map
             (fun p => { p with x := p.x - currentPipeSpeed s.score * dt })).filter
             (fun p => decide (p.x + PIPE_WIDTH > 0))
       let out := scorePass pipes2 s.score s.bestScore
       collidePass H (currentPipeGap out.2.1) out.1
         { s with birdY := y1, birdVy := vy1,
                  spawnTimer := if decide (s.spawnTimer + dt ≥ currentSpawnEvery s.score) then 0
                                else s.spawnTimer + dt,
                  pipes := out.1, score := out.2.1, bestScore := out.2.2 }) := by
  simp only [updateLiveGap]; rw [if_pos hs, if_neg hf]

end Flappy

namespace Flappy

/-! ### Claim theorems -/

/-- Claim C5: for all scores s ≤ t, each difficulty value stays in its
configured range and is monotone in the score: pipeSpeed is non-decreasing
within [baseSpeed, maxSpeed], pipeGap non-increasing within
[minGap, baseGap], spawnInterval non-increasing within
[minSpawnEvery, baseSpawnEvery]. -/
theorem difficulty_clamped_monotone (s t : ℕ) (hst : s ≤ t) :
    (BASE_PIPE_SPEED ≤ currentPipeSpeed s ∧ currentPipeSpeed s ≤ MAX_PIPE_SPEED) ∧
    currentPipeSpeed s ≤ currentPipeSpeed t ∧
    (MIN_PIPE_GAP ≤ currentPipeGap s ∧ currentPipeGap s ≤ BASE_PIPE_GAP) ∧
    currentPipeGap t ≤ currentPipeGap s ∧
    (MIN_SPAWN_EVERY ≤ currentSpawnEvery s ∧ currentSpawnEvery s ≤ BASE_SPAWN_EVERY) ∧
    currentSpawnEvery t ≤ currentSpawnEvery s := by
  have hst' : (s : ℚ) ≤ (t : ℚ) := by exact_mod_cast hst
  refine ⟨⟨le_clamp _ _ _, clamp_le_right _ _ _ (by norm_num [BASE_PIPE_SPEED, MAX_PIPE_SPEED])⟩,
    clamp_mono _ _ ?_,
    ⟨le_clamp _ _ _, clamp_le_right _ _ _ (by norm_num [MIN_PIPE_GAP, BASE_PIPE_GAP])⟩,
    clamp_mono _ _ ?_,
    ⟨le_clamp _ _ _, clamp_le_right _ _ _ (by norm_num [MIN_SPAWN_EVERY, BASE_SPAWN_EVERY])⟩,
    clamp_mono _ _ ?_⟩
  · exact add_le_add_left (mul_le_mul_of_nonneg_right hst' (by norm_num [SPEED_PER_POINT])) _
  · exact sub_le_sub_left (mul_le_mul_of_nonneg_right hst' (by norm_num [GAP_SHRINK_PER_POINT])) _
  · exact sub_le_sub_left
      (mul_le_mul_of_nonneg_right hst' (by norm_num [SPAWN_ACCEL_PER_POINT])) _

/-- Witness for C5 at scores 0 ≤ 3. -/
theorem difficulty_clamped_monotone_witness :
    (BASE_PIPE_SPEED ≤ currentPipeSpeed 0 ∧ currentPipeSpeed 0 ≤ MAX_PIPE_SPEED) ∧
    currentPipeSpeed 0 ≤ currentPipeSpeed 3 ∧
    (MIN_PIPE_GAP ≤ currentPipeGap 0 ∧ currentPipeGap 0 ≤ BASE_PIPE_GAP) ∧
    currentPipeGap 3 ≤ currentPipeGap 0 ∧
    (MIN_SPAWN_EVERY ≤ currentSpawnEvery 0 ∧ currentSpawnEvery 0 ≤ BASE_SPAWN_EVERY) ∧
    currentSpawnEvery 3 ≤ currentSpawnEvery 0 :=
  difficulty_clamped_monotone 0 3 (by norm_num)

/-- Claim C8: the Reset command (goToStart) is idempotent: one or n+1
applications from any state give the identical state, namely the canonical
start state (bird at H * 0.35 with zero velocity, no pipes, spawn timer 0,
score 0, phase START, best score kept). -/
theorem reset_idempotent (H : ℚ) (s : GameState) :
    goToStart H (goToStart H s) = goToStart H s ∧
    goToStart H s = ⟨State.START, H * (35 / 100), 0, [], 0, 0, s.bestScore⟩ ∧
    ∀ n : ℕ, (goToStart H)^[n + 1] s = goToStart H s := by
  refine ⟨rfl, rfl, ?_⟩
  intro n
  induction n with
  | zero => simp
  | succ n ih => rw [Function.iterate_succ_apply', ih]; rfl

/-- Claim C9: a primary action while PLAYING sets the vertical velocity to
exactly JUMP_VELOCITY = -550 (replacing, not adding) and changes no other
simulation state: position, score, spawn timer, pipe list, phase and best
score are untouched. -/
theorem primaryAction_playing_jump (H : ℚ) (s : GameState) (hs : s.state = State.PLAYING) :
    onPrimaryAction H s = { s with birdVy := JUMP_VELOCITY } ∧
    (onPrimaryAction H s).birdVy = -550 ∧
    (onPrimaryAction H s).birdY = s.birdY ∧
    (onPrimaryAction H s).score = s.score ∧
    (onPrimaryAction H s).spawnTimer = s.spawnTimer ∧
    (onPrimaryAction H s).pipes = s.pipes ∧
    (onPrimaryAction H s).state = s.state ∧
    (onPrimaryAction H s).bestScore = s.bestScore := by
  have h1 : s.state ≠ State.START := by rw [hs]; exact fun h => by cases h
  have h2 : s.state ≠ State.GAME_OVER := by rw [hs]; exact fun h => by cases h
  have e : onPrimaryAction H s = { s with birdVy := JUMP_VELOCITY } := by
    simp [onPrimaryAction, h1, h2]
  rw [e]
  exact ⟨rfl, by norm_num [JUMP_VELOCITY], rfl, rfl, rfl, rfl, rfl, rfl⟩

/-- Witness for C9 at a concrete PLAYING state. -/
theorem primaryAction_playing_jump_witness :
    onPrimaryAction 640 ⟨State.PLAYING, 300, 20, [], 1, 2, 5⟩ =
      ⟨State.PLAYING, 300, JUMP_VELOCITY, [], 1, 2, 5⟩ ∧
    (onPrimaryAction 640 ⟨State.PLAYING, 300, 20, [], 1, 2, 5⟩).birdVy = -550 :=
  ⟨(primaryAction_playing_jump 640 ⟨State.PLAYING, 300, 20, [], 1, 2, 5⟩ rfl).1,
   (primaryAction_playing_jump 640 ⟨State.PLAYING, 300, 20, [], 1, 2, 5⟩ rfl).2.1⟩

end Flappy

namespace Flappy

/-- Claim C3: during the scoring pass each obstacle keeps its position and
gap; its scored flag afterwards is true exactly when it was already true or
its trailing edge x + PIPE_WIDTH is strictly left of the avatar's fixed
BIRD_X — so a flag flips false→true at most once, only under that
condition, and is never reset to false; and the score grows by exactly the
number of obstacles whose flag flips this tick. -/
theorem scored_flag_transitions (ps : List Pipe) (sc best : ℕ) :
    List.Forall₂
      (fun p q => q.x = p.x ∧ q.gapY = p.gapY ∧
        (q.scored = true ↔ (p.scored = true ∨ p.x + PIPE_WIDTH < BIRD_X)))
      ps (scorePass ps sc best).1 ∧
    (scorePass ps sc best).2.1 = sc + ps.countP scoreCond := by
  refine ⟨?_, scorePass_score ps sc best⟩
  rw [scorePass_fst, List.forall₂_map_right_iff, List.forall₂_same]
  intro p hp
  rcases p with ⟨px, pg, psc⟩
  cases psc with
  | true =>
    have e : markPipe ⟨px, pg, true⟩ = ⟨px, pg, true⟩ := by simp [markPipe, scoreCond]
    rw [e]
    exact ⟨rfl, rfl, by simp⟩
  | false =>
    by_cases hc : px + PIPE_WIDTH < BIRD_X
    · have e : markPipe ⟨px, pg, false⟩ = ⟨px, pg, true⟩ := by
        simp [markPipe, scoreCond, hc]
      rw [e]
      exact ⟨rfl, rfl, by simp [hc]⟩
    · have e : markPipe ⟨px, pg, false⟩ = ⟨px, pg, false⟩ := by
        simp [markPipe, scoreCond, hc]
      rw [e]
      exact ⟨rfl, rfl, by simp [hc]⟩

/-- Claim C10: the collision pass never changes the avatar's vertical
position, the score, the spawn timer or the obstacle list; when some
obstacle overlaps the bird circle, it enters GAME_OVER with the vertical
velocity zeroed and the best score persisted — in particular no positional
clamp is applied, unlike the floor case. -/
theorem collision_game_over_frame (H g : ℚ) (ps : List Pipe) (s : GameState) :
    ((collidePass H g ps s).birdY = s.birdY ∧
     (collidePass H g ps s).pipes = s.pipes ∧
     (collidePass H g ps s).score = s.score ∧
     (collidePass H g ps s).spawnTimer = s.spawnTimer) ∧
    ((∃ p ∈ ps, hitPipe H g s.birdY p = true) →
      collidePass H g ps s =
        { s with state := State.GAME_OVER, birdVy := 0,
                 bestScore := setBestScore s.score s.bestScore }) := by
  constructor
  · rcases collidePass_cases H g ps s with h | h <;> rw [h] <;> exact ⟨rfl, rfl, rfl, rfl⟩
  · exact collidePass_of_hit H g ps s

/-- Witness for C10: the spec's scenario — bird circle of radius 14 at
(90, 405), obstacle column x ∈ [100, 170] with top segment down to y = 400
overlaps, and the transition zeroes only the velocity. -/
theorem collision_game_over_frame_witness :
    collidePass 640 170 [⟨100, 485, false⟩]
        ⟨State.PLAYING, 405, -100, [⟨100, 485, false⟩], 1/2, 3, 2⟩ =
      ⟨State.GAME_OVER, 405, 0, [⟨100, 485, false⟩], 1/2, 3, setBestScore 3 2⟩ :=
  (collision_game_over_frame 640 170 [⟨100, 485, false⟩]
      ⟨State.PLAYING, 405, -100, [⟨100, 485, false⟩], 1/2, 3, 2⟩).2
    ⟨⟨100, 485, false⟩, by simp,
      by norm_num [hitPipe, circleIntersectsRect, FLOOR_Y, GROUND_HEIGHT, BIRD_X,
        BIRD_RADIUS, PIPE_WIDTH]⟩

end Flappy

namespace Flappy

theorem collidePass_birdY (H g : ℚ) (ps : List Pipe) (s : GameState) :
    (collidePass H g ps s).birdY = s.birdY := by
  rcases collidePass_cases H g ps s with h | h <;> rw [h]

theorem collidePass_pipes (H g : ℚ) (ps : List Pipe) (s : GameState) :
    (collidePass H g ps s).pipes = s.pipes := by
  rcases collidePass_cases H g ps s with h | h <;> rw [h]

theorem collidePass_score (H g : ℚ) (ps : List Pipe) (s : GameState) :
    (collidePass H g ps s).score = s.score := by
  rcases collidePass_cases H g ps s with h | h <;> rw [h]

theorem collidePass_game_over_hit (H g : ℚ) (ps : List Pipe) (s : GameState)
    (h : (collidePass H g ps s).state = State.GAME_OVER)
    (hss : s.state ≠ State.GAME_OVER) :
    ∃ p ∈ ps, hitPipe H g s.birdY p = true := by
  induction ps with
  | nil => exact absurd h hss
  | cons p ps ih =>
    by_cases hp : hitPipe H g s.birdY p = true
    · exact ⟨p, List.mem_cons_self p ps, hp⟩
    · rw [show collidePass H g (p :: ps) s = collidePass H g ps s by
        simp [collidePass, hp]] at h
      rcases ih h with ⟨q, hq, hqh⟩
      exact ⟨q, List.mem_cons_of_mem p hq, hqh⟩

theorem collidePass_birdVy_zero (H g : ℚ) (ps : List Pipe) (s : GameState)
    (h : s.birdVy = 0) : (collidePass H g ps s).birdVy = 0 := by
  rcases collidePass_cases H g ps s with e | e <;> rw [e] <;> exact h

theorem markPipe_x (p : Pipe) : (markPipe p).x = p.x := by
  unfold markPipe; split <;> rfl

theorem markPipe_gapY (p : Pipe) : (markPipe p).gapY = p.gapY := by
  unfold markPipe; split <;> rfl

/-- Claim C2 (amended): if during PLAYING the avatar sits at or below
floorY − radius with nonnegative vertical velocity, then update(dt) with
dt ≥ 0 enters GAME_OVER, clamps the position to exactly floorY − radius,
zeroes the velocity, persists the best score, and skips the remaining steps
of the tick: pipes, spawn timer and score are untouched. -/
theorem floor_collision_game_over (W H dt r : ℚ) (s : GameState)
    (hs : s.state = State.PLAYING)
    (hy : FLOOR_Y H - BIRD_RADIUS ≤ s.birdY)
    (hvy : 0 ≤ s.birdVy) (hdt : 0 ≤ dt) :
    update W H dt r s =
      { s with birdY := FLOOR_Y H - BIRD_RADIUS, birdVy := 0, state := State.GAME_OVER,
               bestScore := setBestScore s.score s.bestScore } := by
  apply update_eq_floor W H dt r s hs
  have hG : (0 : ℚ) ≤ GRAVITY := by norm_num [GRAVITY]
  have hstep : (0 : ℚ) ≤ (s.birdVy + GRAVITY * dt) * dt :=
    mul_nonneg (add_nonneg hvy (mul_nonneg hG hdt)) hdt
  have hy0 : FLOOR_Y H - BIRD_RADIUS ≤ s.birdY + (s.birdVy + GRAVITY * dt) * dt := by
    linarith
  by_cases hc : s.birdY + (s.birdVy + GRAVITY * dt) * dt < BIRD_RADIUS
  · rw [if_pos hc]
    show FLOOR_Y H - BIRD_RADIUS ≤ BIRD_RADIUS
    linarith
  · rw [if_neg hc]
    exact hy0

/-- Counterexample to C2 as stated: on a 100-pixel-tall canvas the primary
action from START yields the bird at 35 ≥ floorY − radius = 16 with the
start jump velocity −550, yet the next update(0.05) stays in PLAYING,
because gravity integration runs before the floor check and the jump
carries the bird back above the floor line. -/
theorem floor_collision_game_over_cex :
    startPlaying 100 true ⟨State.START, 0, 0, [], 0, 0, 0⟩ =
      ⟨State.PLAYING, 35, -550, [], 0, 0, 0⟩ ∧
    FLOOR_Y 100 - BIRD_RADIUS ≤ (35 : ℚ) ∧
    (update 400 100 (1/20) 0 ⟨State.PLAYING, 35, -550, [], 0, 0, 0⟩).state ≠
      State.GAME_OVER := by
  refine ⟨?_, by norm_num [FLOOR_Y, GROUND_HEIGHT, BIRD_RADIUS], ?_⟩
  · norm_num [startPlaying, resetRun, JUMP_VELOCITY]
  · have e : (update 400 100 (1/20) 0 ⟨State.PLAYING, 35, -550, [], 0, 0, 0⟩).state =
        State.PLAYING := by
      norm_num [update, scorePass, collidePass, FLOOR_Y, GRAVITY, BIRD_RADIUS,
        GROUND_HEIGHT, currentPipeSpeed, currentPipeGap, currentSpawnEvery, clamp,
        BASE_PIPE_SPEED, SPEED_PER_POINT, MAX_PIPE_SPEED, BASE_PIPE_GAP,
        GAP_SHRINK_PER_POINT, MIN_PIPE_GAP, BASE_SPAWN_EVERY, MIN_SPAWN_EVERY,
        SPAWN_ACCEL_PER_POINT]
    rw [e]
    exact fun h => by cases h

/-- Witness for the amended C2 at a concrete state resting on the floor
line of a 640-pixel-tall canvas. -/
theorem floor_collision_game_over_witness :
    update 400 640 (1/100) 0 ⟨State.PLAYING, 556, 0, [], 0, 0, 0⟩ =
      { (⟨State.PLAYING, 556, 0, [], 0, 0, 0⟩ : GameState) with
        birdY := FLOOR_Y 640 - BIRD_RADIUS, birdVy := 0, state := State.GAME_OVER,
        bestScore := setBestScore 0 0 } :=
  floor_collision_game_over 400 640 (1/100) 0 ⟨State.PLAYING, 556, 0, [], 0, 0, 0⟩ rfl
    (by norm_num [FLOOR_Y, GROUND_HEIGHT, BIRD_RADIUS]) (by norm_num) (by norm_num)

end Flappy

namespace Flappy

/-- Claim C7: after an update that stays in PLAYING the avatar's vertical
position lies within [BIRD_RADIUS, floorY − BIRD_RADIUS]; when the
integrated position crosses the ceiling it is clamped to BIRD_RADIUS with
zeroed velocity and the run can end this tick only through a pipe overlap,
never through the clamp itself; and whenever the integrated position
reaches floorY − BIRD_RADIUS the run leaves PLAYING. -/
theorem playing_position_bounds (W H dt r : ℚ) (s : GameState) :
    ((update W H dt r s).state = State.PLAYING →
      BIRD_RADIUS ≤ (update W H dt r s).birdY ∧
      (update W H dt r s).birdY ≤ FLOOR_Y H - BIRD_RADIUS) ∧
    (s.state = State.PLAYING → s.birdY + (s.birdVy + GRAVITY * dt) * dt < BIRD_RADIUS →
      BIRD_RADIUS < FLOOR_Y H - BIRD_RADIUS →
      (update W H dt r s).birdY = BIRD_RADIUS ∧ (update W H dt r s).birdVy = 0 ∧
      ((update W H dt r s).state = State.GAME_OVER →
        ∃ p ∈ (update W H dt r s).pipes,
          hitPipe H (currentPipeGap s.score) BIRD_RADIUS p = true)) ∧
    (s.state = State.PLAYING →
      FLOOR_Y H - BIRD_RADIUS ≤ s.birdY + (s.birdVy + GRAVITY * dt) * dt →
      (update W H dt r s).state = State.GAME_OVER) := by
  refine ⟨?_, ?_, ?_⟩
  · -- bounds while still PLAYING
    intro hpost
    by_cases hs : s.state = State.PLAYING
    · by_cases hf : (if s.birdY + (s.birdVy + GRAVITY * dt) * dt < BIRD_RADIUS then BIRD_RADIUS
          else s.birdY + (s.birdVy + GRAVITY * dt) * dt) ≥ FLOOR_Y H - BIRD_RADIUS
      · rw [update_eq_floor W H dt r s hs hf] at hpost
        cases hpost
      · rw [update_eq_main W H dt r s hs hf]
        have hlt := not_le.1 hf
        simp only [collidePass_birdY]
        constructor
        · by_cases hc : s.birdY + (s.birdVy + GRAVITY * dt) * dt < BIRD_RADIUS
          · simp [hc]
          · simp [hc]; linarith [not_lt.1 hc]
        · by_cases hc : s.birdY + (s.birdVy + GRAVITY * dt) * dt < BIRD_RADIUS
          · rw [if_pos hc] at hlt; simp [hc]; linarith
          · rw [if_neg hc] at hlt; simp [hc]; linarith
    · rw [update_not_playing W H dt r s hs] at hpost
      exact absurd hpost hs
  · -- ceiling clamp
    intro hs hylt hgeom
    have hf : ¬ ((if s.birdY + (s.birdVy + GRAVITY * dt) * dt < BIRD_RADIUS then BIRD_RADIUS
        else s.birdY + (s.birdVy + GRAVITY * dt) * dt) ≥ FLOOR_Y H - BIRD_RADIUS) := by
      rw [if_pos hylt]
      exact fun hge => absurd hgeom (not_lt.2 hge)
    rw [update_eq_main W H dt r s hs hf]
    dsimp only
    refine ⟨?_, ?_, ?_⟩
    · rw [collidePass_birdY]; simp [hylt]
    · apply collidePass_birdVy_zero
      simp [hylt]
    · intro hgo
      have hhit := collidePass_game_over_hit _ _ _ _ hgo (by simp [hs])
      rw [collidePass_pipes]
      simpa [hylt] using hhit
  · -- floor leaves PLAYING
    intro hs hyge
    have hf : (if s.birdY + (s.birdVy + GRAVITY * dt) * dt < BIRD_RADIUS then BIRD_RADIUS
        else s.birdY + (s.birdVy + GRAVITY * dt) * dt) ≥ FLOOR_Y H - BIRD_RADIUS := by
      by_cases hc : s.birdY + (s.birdVy + GRAVITY * dt) * dt < BIRD_RADIUS
      · rw [if_pos hc]; show FLOOR_Y H - BIRD_RADIUS ≤ BIRD_RADIUS; linarith
      · rw [if_neg hc]; exact hyge
    rw [update_eq_floor W H dt r s hs hf]


/-- Witness for C7 at a concrete mid-air PLAYING state on a 640-pixel-tall
canvas. -/
theorem playing_position_bounds_witness :
    BIRD_RADIUS ≤ (update 400 640 (1/100) 0 ⟨State.PLAYING, 300, 0, [], 0, 0, 0⟩).birdY ∧
    (update 400 640 (1/100) 0 ⟨State.PLAYING, 300, 0, [], 0, 0, 0⟩).birdY ≤
      FLOOR_Y 640 - BIRD_RADIUS :=
  (playing_position_bounds 400 640 (1/100) 0 ⟨State.PLAYING, 300, 0, [], 0, 0, 0⟩).1
    (by norm_num [update, scorePass, collidePass, FLOOR_Y, GRAVITY, BIRD_RADIUS, GROUND_HEIGHT,
      currentPipeSpeed, currentPipeGap, currentSpawnEvery, clamp, BASE_PIPE_SPEED,
      SPEED_PER_POINT, MAX_PIPE_SPEED, BASE_PIPE_GAP, GAP_SHRINK_PER_POINT, MIN_PIPE_GAP,
      BASE_SPAWN_EVERY, MIN_SPAWN_EVERY, SPAWN_ACCEL_PER_POINT])

end Flappy

namespace Flappy

/-- Claim C4: update never leaves an obstacle whose trailing edge
x + PIPE_WIDTH is at or left of 0 (assuming none was there before the
tick, which covers the no-op and floor paths where the list is untouched);
and with dt within the 0.05 clamp and a nonnegative canvas width, the pipe
spawned in a tick survives that same tick's pruning: it is still present
afterwards, moved to x = W + PIPE_WIDTH − pipeSpeed·dt. -/
theorem pipes_pruned_spawn_survives (W H dt r : ℚ) (s : GameState) :
    ((∀ p ∈ s.pipes, 0 < p.x + PIPE_WIDTH) →
      ∀ p ∈ (update W H dt r s).pipes, 0 < p.x + PIPE_WIDTH) ∧
    (0 ≤ dt → dt ≤ 1/20 → 0 ≤ W → s.state = State.PLAYING →
      s.birdY + (s.birdVy + GRAVITY * dt) * dt < FLOOR_Y H - BIRD_RADIUS →
      BIRD_RADIUS < FLOOR_Y H - BIRD_RADIUS →
      currentSpawnEvery s.score ≤ s.spawnTimer + dt →
      ∃ p ∈ (update W H dt r s).pipes,
        p.x = W + PIPE_WIDTH - currentPipeSpeed s.score * dt) := by
  constructor
  · intro hpre p hp
    by_cases hs : s.state = State.PLAYING
    · by_cases hf : (if s.birdY + (s.birdVy + GRAVITY * dt) * dt < BIRD_RADIUS then BIRD_RADIUS
          else s.birdY + (s.birdVy + GRAVITY * dt) * dt) ≥ FLOOR_Y H - BIRD_RADIUS
      · rw [update_eq_floor W H dt r s hs hf] at hp
        exact hpre p hp
      · rw [update_eq_main W H dt r s hs hf] at hp
        dsimp only at hp
        rw [collidePass_pipes, scorePass_fst] at hp
        rcases List.mem_map.1 hp with ⟨q, hq, rfl⟩
        rw [markPipe_x]
        have hqf := (List.mem_filter.1 hq).2
        simpa using of_decide_eq_true hqf
    · rw [update_not_playing W H dt r s hs] at hp
      exact hpre p hp
  · intro hdt0 hdt1 hW hs hyfl hgeom hspawn
    have hf : ¬ ((if s.birdY + (s.birdVy + GRAVITY * dt) * dt < BIRD_RADIUS then BIRD_RADIUS
        else s.birdY + (s.birdVy + GRAVITY * dt) * dt) ≥ FLOOR_Y H - BIRD_RADIUS) := by
      by_cases hc : s.birdY + (s.birdVy + GRAVITY * dt) * dt < BIRD_RADIUS
      · rw [if_pos hc]; exact fun hge => absurd hgeom (not_lt.2 hge)
      · rw [if_neg hc]; exact fun hge => absurd hyfl (not_lt.2 hge)
    rw [update_eq_main W H dt r s hs hf]
    dsimp only
    rw [collidePass_pipes, scorePass_fst]
    have hds : decide (s.spawnTimer + dt ≥ currentSpawnEvery s.score) = true :=
      decide_eq_true hspawn
    rw [if_pos hds]
    have hsd : currentPipeSpeed s.score * dt ≤ 18 := by
      have h1 : currentPipeSpeed s.score * dt ≤ 360 * dt :=
        mul_le_mul_of_nonneg_right (currentPipeSpeed_le _) hdt0
      nlinarith
    refine ⟨markPipe ⟨W + PIPE_WIDTH - currentPipeSpeed s.score * dt,
      rand r (PIPE_MARGIN + currentPipeGap s.score / 2)
        (FLOOR_Y H - PIPE_MARGIN - currentPipeGap s.score / 2), false⟩,
      List.mem_map_of_mem _ ?_, by rw [markPipe_x]⟩
    refine List.mem_filter.2 ⟨?_, ?_⟩
    · have : (⟨W + PIPE_WIDTH,
          rand r (PIPE_MARGIN + currentPipeGap s.score / 2)
            (FLOOR_Y H - PIPE_MARGIN - currentPipeGap s.score / 2), false⟩ : Pipe) ∈
          s.pipes ++ [⟨W + PIPE_WIDTH,
            rand r (PIPE_MARGIN + currentPipeGap s.score / 2)
              (FLOOR_Y H - PIPE_MARGIN - currentPipeGap s.score / 2), false⟩] :=
        List.mem_append_right _ (List.mem_singleton_self _)
      exact List.mem_map_of_mem _ this
    · apply decide_eq_true
      show (0 : ℚ) < W + PIPE_WIDTH - currentPipeSpeed s.score * dt + PIPE_WIDTH
      norm_num [PIPE_WIDTH]
      linarith


/-- Witness for C4: a tick whose spawn timer has just reached the spawn
interval; the fresh pipe is present after the tick at
x = 400 + 70 − 220·0.01, and no pipe has trailing edge ≤ 0. -/
theorem pipes_pruned_spawn_survives_witness :
    ∃ p ∈ (update 400 640 (1/100) 0 ⟨State.PLAYING, 300, 0, [], 27/20, 0, 0⟩).pipes,
      p.x = 400 + PIPE_WIDTH - currentPipeSpeed 0 * (1/100) :=
  (pipes_pruned_spawn_survives 400 640 (1/100) 0
      ⟨State.PLAYING, 300, 0, [], 27/20, 0, 0⟩).2
    (by norm_num) (by norm_num) (by norm_num) rfl
    (by norm_num [GRAVITY, FLOOR_Y, GROUND_HEIGHT, BIRD_RADIUS])
    (by norm_num [FLOOR_Y, GROUND_HEIGHT, BIRD_RADIUS])
    (by norm_num [currentSpawnEvery, clamp, BASE_SPAWN_EVERY, MIN_SPAWN_EVERY,
      SPAWN_ACCEL_PER_POINT])

end Flappy

namespace Flappy

theorem onPrimaryAction_bestScore (H : ℚ) (s : GameState) :
    (onPrimaryAction H s).bestScore = s.bestScore := by
  unfold onPrimaryAction startPlaying resetRun
  split_ifs <;> rfl

theorem collidePass_bestScore_mono (H g : ℚ) (ps : List Pipe) (s : GameState) :
    s.bestScore ≤ (collidePass H g ps s).bestScore := by
  rcases collidePass_cases H g ps s with h | h
  · exact le_of_eq (congrArg GameState.bestScore h.symm)
  · rw [h]
    show s.bestScore ≤ setBestScore s.score s.bestScore
    rw [setBestScore_eq_max]; omega

theorem main_path_bestScore_mono (H g : ℚ) (xs : List Pipe) (s : GameState)
    (y1 vy1 st1 : ℚ) :
    s.bestScore ≤
      (collidePass H g (scorePass xs s.score s.bestScore).1
        ⟨s.state, y1, vy1, (scorePass xs s.score s.bestScore).1, st1,
         (scorePass xs s.score s.bestScore).2.1,
         (scorePass xs s.score s.bestScore).2.2⟩).bestScore :=
  le_trans (le_scorePass_best xs s.score s.bestScore)
    (collidePass_bestScore_mono H g (scorePass xs s.score s.bestScore).1
      ⟨s.state, y1, vy1, (scorePass xs s.score s.bestScore).1, st1,
       (scorePass xs s.score s.bestScore).2.1, (scorePass xs s.score s.bestScore).2.2⟩)

theorem main_path_game_over_best (H g : ℚ) (xs : List Pipe) (s : GameState)
    (y1 vy1 st1 : ℚ) (hss : s.state ≠ State.GAME_OVER)
    (hgo : (collidePass H g (scorePass xs s.score s.bestScore).1
        ⟨s.state, y1, vy1, (scorePass xs s.score s.bestScore).1, st1,
         (scorePass xs s.score s.bestScore).2.1,
         (scorePass xs s.score s.bestScore).2.2⟩).state = State.GAME_OVER) :
    (collidePass H g (scorePass xs s.score s.bestScore).1
        ⟨s.state, y1, vy1, (scorePass xs s.score s.bestScore).1, st1,
         (scorePass xs s.score s.bestScore).2.1,
         (scorePass xs s.score s.bestScore).2.2⟩).bestScore =
      max s.bestScore
        (collidePass H g (scorePass xs s.score s.bestScore).1
          ⟨s.state, y1, vy1, (scorePass xs s.score s.bestScore).1, st1,
           (scorePass xs s.score s.bestScore).2.1,
           (scorePass xs s.score s.bestScore).2.2⟩).score := by
  rcases collidePass_cases H g (scorePass xs s.score s.bestScore).1
      ⟨s.state, y1, vy1, (scorePass xs s.score s.bestScore).1, st1,
       (scorePass xs s.score s.bestScore).2.1,
       (scorePass xs s.score s.bestScore).2.2⟩ with h | h
  · rw [h] at hgo; exact absurd hgo hss
  · rw [h]
    show setBestScore (scorePass xs s.score s.bestScore).2.1
        (scorePass xs s.score s.bestScore).2.2 =
      max s.bestScore (scorePass xs s.score s.bestScore).2.1
    have h1 := le_scorePass_best xs s.score s.bestScore
    have h2 := scorePass_best_le xs s.score s.bestScore
    have h3 := setBestScore_eq_max (scorePass xs s.score s.bestScore).2.1
      (scorePass xs s.score s.bestScore).2.2
    omega

theorem update_bestScore_mono (W H dt r : ℚ) (s : GameState) :
    s.bestScore ≤ (update W H dt r s).bestScore := by
  by_cases hs : s.state = State.PLAYING
  · by_cases hf : (if s.birdY + (s.birdVy + GRAVITY * dt) * dt < BIRD_RADIUS then BIRD_RADIUS
        else s.birdY + (s.birdVy + GRAVITY * dt) * dt) ≥ FLOOR_Y H - BIRD_RADIUS
    · rw [update_eq_floor W H dt r s hs hf]
      show s.bestScore ≤ setBestScore s.score s.bestScore
      rw [setBestScore_eq_max]; omega
    · rw [update_eq_main W H dt r s hs hf]
      dsimp only
      exact main_path_bestScore_mono H (currentPipeGap s.score) _ s _ _ _
  · rw [update_not_playing W H dt r s hs]

theorem step_bestScore_mono (W H : ℚ) (c : Cmd) (s : GameState)
    (hc : c ≠ Cmd.clearBestCmd) : s.bestScore ≤ (step W H c s).bestScore := by
  cases c with
  | primary => rw [step, onPrimaryAction_bestScore]
  | reset => exact le_rfl
  | clearBestCmd => exact absurd rfl hc
  | muteToggle => exact le_rfl
  | tick dt r => exact update_bestScore_mono W H dt r s


theorem steps_bestScore_mono (W H : ℚ) (cs : List Cmd) (s : GameState)
    (hcs : ∀ c ∈ cs, c ≠ Cmd.clearBestCmd) :
    s.bestScore ≤ (steps W H cs s).bestScore := by
  induction cs generalizing s with
  | nil => exact le_rfl
  | cons c cs ih =>
    exact le_trans (step_bestScore_mono W H c s (hcs c (List.mem_cons_self c cs)))
      (ih (step W H c s) fun d hd => hcs d (List.mem_cons_of_mem c hd))

/-- Claim C6 (amended): the best score never decreases across any sequence
of primary actions, resets, mute toggles and update ticks — every command
except clear-best, which resets it to 0; setBestScore replaces the stored
value exactly when the new score strictly exceeds it (max semantics); and
on any tick that ends a run (PLAYING → GAME_OVER) the stored best becomes
max(bestScore, finalScore). -/
theorem best_score_never_decreases :
    (∀ (W H : ℚ) (cs : List Cmd) (s : GameState),
      (∀ c ∈ cs, c ≠ Cmd.clearBestCmd) →
      s.bestScore ≤ (steps W H cs s).bestScore) ∧
    (∀ n b : ℕ, setBestScore n b = max b n) ∧
    (∀ (W H dt r : ℚ) (s : GameState), s.state = State.PLAYING →
      (update W H dt r s).state = State.GAME_OVER →
      (update W H dt r s).bestScore = max s.bestScore (update W H dt r s).score) := by
  refine ⟨steps_bestScore_mono, setBestScore_eq_max, ?_⟩
  intro W H dt r s hs hgo
  by_cases hf : (if s.birdY + (s.birdVy + GRAVITY * dt) * dt < BIRD_RADIUS then BIRD_RADIUS
      else s.birdY + (s.birdVy + GRAVITY * dt) * dt) ≥ FLOOR_Y H - BIRD_RADIUS
  · rw [update_eq_floor W H dt r s hs hf]
    show setBestScore s.score s.bestScore = max s.bestScore s.score
    exact setBestScore_eq_max s.score s.bestScore
  · rw [update_eq_main W H dt r s hs hf] at hgo ⊢
    dsimp only at hgo ⊢
    exact main_path_game_over_best H (currentPipeGap s.score) _ s _ _ _
      (by rw [hs]; exact fun h => by cases h) hgo

/-- Counterexample to C6 as stated: the clear-best command (KeyC) is a
command, and it drops the best score from 1 to 0. -/
theorem best_score_never_decreases_cex :
    (⟨State.START, 0, 0, [], 0, 0, 1⟩ : GameState).bestScore = 1 ∧
    (steps 400 640 [Cmd.clearBestCmd] ⟨State.START, 0, 0, [], 0, 0, 1⟩).bestScore = 0 :=
  ⟨rfl, rfl⟩

/-- Witness for C6 over a concrete clear-best-free command sequence. -/
theorem best_score_never_decreases_witness :
    (⟨State.START, 0, 0, [], 0, 0, 5⟩ : GameState).bestScore ≤
      (steps 400 640 [Cmd.primary, Cmd.tick (1/100) 0, Cmd.reset]
        ⟨State.START, 0, 0, [], 0, 0, 5⟩).bestScore :=
  best_score_never_decreases.1 400 640 [Cmd.primary, Cmd.tick (1/100) 0, Cmd.reset]
    ⟨State.START, 0, 0, [], 0, 0, 5⟩ (by simp)

/-- Claim C1 (amended): the three difficulty values are read once per tick
from the score at tick entry, not re-read at each use; update therefore
coincides with the live-recomputation variant exactly on ticks where the
scoring pass leaves the score unchanged. -/
theorem difficulty_tick_entry (W H dt r : ℚ) (s : GameState)
    (hsc : (update W H dt r s).score = s.score) :
    update W H dt r s = updateLiveGap W H dt r s := by
  by_cases hs : s.state = State.PLAYING
  · by_cases hf : (if s.birdY + (s.birdVy + GRAVITY * dt) * dt < BIRD_RADIUS then BIRD_RADIUS
        else s.birdY + (s.birdVy + GRAVITY * dt) * dt) ≥ FLOOR_Y H - BIRD_RADIUS
    · rw [update_eq_floor W H dt r s hs hf, updateLiveGap_eq_floor W H dt r s hs hf]
    · rw [update_eq_main W H dt r s hs hf] at hsc ⊢
      rw [updateLiveGap_eq_main W H dt r s hs hf]
      dsimp only at hsc ⊢
      rw [collidePass_score] at hsc
      dsimp only at hsc
      rw [hsc]
  · rw [update_not_playing W H dt r s hs, updateLiveGap_not_playing W H dt r s hs]

/-- Counterexample to C1 as stated: a tick in which the scoring pass
increments the score (pipe at x = 10 crosses BIRD_X) while a second pipe
grazes the bird: the code's collision pass, using the gap from the
pre-increment score 0 (gap 170), finds no overlap and stays PLAYING, while
the claimed live recomputation (gap(1) = 168.8) detects a hit. -/
theorem difficulty_tick_entry_cex :
    (update 400 640 (1/100) 0
      ⟨State.PLAYING, 300, 0, [⟨10, 375, false⟩, ⟨76, 9267/25, false⟩], 0, 0, 0⟩).score = 1 ∧
    (update 400 640 (1/100) 0
      ⟨State.PLAYING, 300, 0, [⟨10, 375, false⟩, ⟨76, 9267/25, false⟩], 0, 0, 0⟩).state =
      State.PLAYING ∧
    (updateLiveGap 400 640 (1/100) 0
      ⟨State.PLAYING, 300, 0, [⟨10, 375, false⟩, ⟨76, 9267/25, false⟩], 0, 0, 0⟩).state =
      State.GAME_OVER := by
  refine ⟨?_, ?_, ?_⟩ <;>
    norm_num [update, updateLiveGap, scorePass, collidePass, scoreCond, setBestScore,
      hitPipe, circleIntersectsRect, rand, markPipe,
      FLOOR_Y, GRAVITY, BIRD_RADIUS, GROUND_HEIGHT, BIRD_X, PIPE_WIDTH, PIPE_MARGIN,
      currentPipeSpeed, currentPipeGap, currentSpawnEvery, clamp, BASE_PIPE_SPEED,
      SPEED_PER_POINT, MAX_PIPE_SPEED, BASE_PIPE_GAP, GAP_SHRINK_PER_POINT, MIN_PIPE_GAP,
      BASE_SPAWN_EVERY, MIN_SPAWN_EVERY, SPAWN_ACCEL_PER_POINT]

/-- Witness for the amended C1 at a tick with no mid-tick scoring. -/
theorem difficulty_tick_entry_witness :
    update 400 640 (1/100) 0 ⟨State.PLAYING, 300, 0, [], 0, 0, 0⟩ =
      updateLiveGap 400 640 (1/100) 0 ⟨State.PLAYING, 300, 0, [], 0, 0, 0⟩ :=
  difficulty_tick_entry 400 640 (1/100) 0 ⟨State.PLAYING, 300, 0, [], 0, 0, 0⟩
    (by norm_num [update, scorePass, collidePass, FLOOR_Y, GRAVITY, BIRD_RADIUS,
      GROUND_HEIGHT, currentPipeSpeed, currentPipeGap, currentSpawnEvery, clamp,
      BASE_PIPE_SPEED, SPEED_PER_POINT, MAX_PIPE_SPEED, BASE_PIPE_GAP,
      GAP_SHRINK_PER_POINT, MIN_PIPE_GAP, BASE_SPAWN_EVERY, MIN_SPAWN_EVERY,
      SPAWN_ACCEL_PER_POINT])
end Flappy

namespace Flappy

/-- Witness for C3 at a concrete pipe list: one pipe just past the bird,
one not yet passed, one already scored. -/
theorem scored_flag_transitions_witness :
    List.Forall₂
      (fun p q => q.x = p.x ∧ q.gapY = p.gapY ∧
        (q.scored = true ↔ (p.scored = true ∨ p.x + PIPE_WIDTH < BIRD_X)))
      ([⟨10, 375, false⟩, ⟨200, 300, false⟩, ⟨-20, 260, true⟩] : List Pipe)
      (scorePass [⟨10, 375, false⟩, ⟨200, 300, false⟩, ⟨-20, 260, true⟩] 3 2).1 ∧
    (scorePass [⟨10, 375, false⟩, ⟨200, 300, false⟩, ⟨-20, 260, true⟩] 3 2).2.1 =
      3 + List.countP scoreCond [⟨10, 375, false⟩, ⟨200, 300, false⟩, ⟨-20, 260, true⟩] :=
  scored_flag_transitions [⟨10, 375, false⟩, ⟨200, 300, false⟩, ⟨-20, 260, true⟩] 3 2

/-- Witness for C8 at a concrete mid-run state. -/
theorem reset_idempotent_witness :
    goToStart 640 (goToStart 640 ⟨State.PLAYING, 300, -5, [⟨10, 375, false⟩], 1, 2, 3⟩) =
      goToStart 640 ⟨State.PLAYING, 300, -5, [⟨10, 375, false⟩], 1, 2, 3⟩ ∧
    goToStart 640 ⟨State.PLAYING, 300, -5, [⟨10, 375, false⟩], 1, 2, 3⟩ =
      ⟨State.START, 640 * (35 / 100), 0, [], 0, 0, 3⟩ :=
  ⟨(reset_idempotent 640 ⟨State.PLAYING, 300, -5, [⟨10, 375, false⟩], 1, 2, 3⟩).1,
   (reset_idempotent 640 ⟨State.PLAYING, 300, -5, [⟨10, 375, false⟩], 1, 2, 3⟩).2.1⟩

end Flappy
